import Mathlib

/-!
Verification of the shared host/GPU layout contract declared in
`MetalShooter/ShaderTypes.h`.

The header declares fixed-layout aggregate structures (vertex input,
uniforms, lighting, materials, shadow uniforms) and binding-slot
enumerations shared between Swift host code and Metal shaders.  We embed
the header shallowly:

* each C type used by the header is represented by its platform size and
  alignment under Apple's `simd` rules (a `simd_float3` occupies 16 bytes
  with 16-byte alignment; `simd_float2` 8/8; `simd_float4` 16/16;
  `simd_float4x4` 64 bytes with 16-byte alignment; `float` and `int`
  4/4), together with its natural (packed scalar) size — 12 bytes for a
  three-component float vector — and its array element count;
* each structure is the ordered list of its (field name, type) pairs,
  transcribed field for field from the header;
* the standard non-packed C layout algorithm computes field offsets and
  the structure size: each field is placed at the next offset aligned to
  the field type's alignment, and the total size is the end offset
  rounded up to the structure's alignment (the maximum field alignment);
* the enumerations become named integer constants with the literal
  values of the header.
-/

namespace ShaderTypes

/-- A C type as the layout algorithm sees it: platform size and alignment
under Apple simd rules, the natural (packed scalar) size, and the number
of array elements (1 for a non-array type). -/
structure CTy where
  size : Nat
  align : Nat
  nat : Nat
  count : Nat
deriving DecidableEq, Repr

/-- C `float`: 4 bytes, 4-byte alignment. -/
def float : CTy := ⟨4, 4, 4, 1⟩

/-- C `int` (32-bit): 4 bytes, 4-byte alignment. -/
def int : CTy := ⟨4, 4, 4, 1⟩

/-- `simd_float2`: 8 bytes, 8-byte alignment. -/
def simd_float2 : CTy := ⟨8, 8, 8, 1⟩

/-- `simd_float3`: occupies 16 bytes with 16-byte alignment on the
platform; its natural packed size is 3 floats = 12 bytes. -/
def simd_float3 : CTy := ⟨16, 16, 12, 1⟩

/-- `simd_float4`: 16 bytes, 16-byte alignment. -/
def simd_float4 : CTy := ⟨16, 16, 16, 1⟩

/-- `simd_float4x4`: four `simd_float4` columns, 64 bytes, 16-byte
alignment. -/
def simd_float4x4 : CTy := ⟨64, 16, 64, 1⟩

/-- A fixed-size C array `elem[n]`. -/
def arrTy (t : CTy) (n : Nat) : CTy := ⟨t.size * n, t.align, t.size * n, n⟩

/-- A structure, as declared: the ordered list of field names and types. -/
abbrev Struct := List (String × CTy)

/-- Round `off` up to the next multiple of `a`. -/
def alignUp (off a : Nat) : Nat := (off + a - 1) / a * a

/-- Offsets the non-packed C layout algorithm assigns to the fields,
starting the structure at `off`. -/
def fieldOffsets : List (String × CTy) → Nat → List (String × Nat)
  | [], _ => []
  | (n, t) :: rest, off =>
    let o := alignUp off t.align
    (n, o) :: fieldOffsets rest (o + t.size)

/-- The offset one past the last field (before tail padding). -/
def endOffset : List (String × CTy) → Nat → Nat
  | [], off => off
  | (_, t) :: rest, off => endOffset rest (alignUp off t.align + t.size)

/-- Structure alignment: the maximum alignment of its fields. -/
def alignofStruct (fs : Struct) : Nat :=
  fs.foldl (fun a f => max a f.2.align) 1

/-- `sizeof` the structure: the end offset rounded up to the structure's
alignment (tail padding included). -/
def sizeofStruct (fs : Struct) : Nat :=
  alignUp (endOffset fs 0) (alignofStruct fs)

/-- The offset of the named field, 0 if absent. -/
def offsetOf (fs : Struct) (n : String) : Nat :=
  ((fieldOffsets fs 0).lookup n).getD 0

/-- The declared type of the named field. -/
def fieldTy (fs : Struct) (n : String) : Option CTy := fs.lookup n

/-- A structure used as a field type of another structure: platform size
and alignment of the whole aggregate, element count 1. -/
def structTy (fs : Struct) : CTy :=
  ⟨sizeofStruct fs, alignofStruct fs, sizeofStruct fs, 1⟩

/-- Sum of the declared fields' platform sizes (no layout padding). -/
def sumSizes (fs : Struct) : Nat := (fs.map (fun f => f.2.size)).sum

/-- Sum of the declared fields' natural (packed scalar) sizes. -/
def natSum (fs : Struct) : Nat := (fs.map (fun f => f.2.nat)).sum

/-- The explicit padding field names the header uses. -/
def paddingNames : List String := ["padding", "padding0", "padding1", "padding2"]

/-- Whether the structure declares an explicit padding field. -/
def hasExplicitPadding (fs : Struct) : Bool :=
  fs.any (fun f => paddingNames.contains f.1)

/-- The structure without its explicit padding fields. -/
def stripPadding (fs : Struct) : Struct :=
  fs.filter (fun f => !(paddingNames.contains f.1))

-- MARK: capacity constants (`#define`s of the header)

/-- `MAX_POINT_LIGHTS`. -/
def MAX_POINT_LIGHTS : Nat := 8

/-- `MAX_SPOT_LIGHTS`. -/
def MAX_SPOT_LIGHTS : Nat := 8

/-- `MAX_DIRECTIONAL_LIGHTS`. -/
def MAX_DIRECTIONAL_LIGHTS : Nat := 4

/-- `MAX_CASCADE_COUNT`. -/
def MAX_CASCADE_COUNT : Nat := 4

-- MARK: the structures, transcribed field for field from the header

/-- `VertexIn`: per-vertex attributes. -/
def VertexIn : Struct :=
  [("position", simd_float3), ("normal", simd_float3),
   ("texCoords", simd_float2), ("color", simd_float4),
   ("tangent", simd_float3)]

/-- `Uniforms`: the MVP matrix triple. -/
def Uniforms : Struct :=
  [("modelMatrix", simd_float4x4), ("viewMatrix", simd_float4x4),
   ("projectionMatrix", simd_float4x4)]

/-- `DirectionalLightData`. -/
def DirectionalLightData : Struct :=
  [("direction", simd_float3), ("intensity", float),
   ("color", simd_float3), ("padding", float)]

/-- `PointLightData`. -/
def PointLightData : Struct :=
  [("position", simd_float3), ("intensity", float),
   ("color", simd_float3), ("range", float)]

/-- `SpotLightData`. -/
def SpotLightData : Struct :=
  [("position", simd_float3), ("intensity", float),
   ("direction", simd_float3), ("range", float),
   ("color", simd_float3), ("innerConeAngle", float),
   ("outerConeAngle", float), ("padding1", float),
   ("padding2", simd_float2)]

/-- `LightingData`: the aggregated per-frame lighting block. -/
def LightingData : Struct :=
  [("ambientColor", simd_float3), ("padding0", float),
   ("cameraPosition", simd_float3), ("padding1", float),
   ("directionalLight", structTy DirectionalLightData),
   ("pointLightCount", int), ("spotLightCount", int),
   ("padding2", simd_float2),
   ("pointLights", arrTy (structTy PointLightData) MAX_POINT_LIGHTS),
   ("spotLights", arrTy (structTy SpotLightData) MAX_SPOT_LIGHTS),
   ("cascadeDistances", simd_float4),
   ("shadowMatrices", arrTy simd_float4x4 MAX_CASCADE_COUNT)]

/-- `MaterialData`: PBR material parameters. -/
def MaterialData : Struct :=
  [("baseColor", simd_float4), ("metallic", float),
   ("roughness", float), ("ao", float), ("padding0", float),
   ("emissive", simd_float3), ("padding1", float)]

/-- `ShadowUniforms`. -/
def ShadowUniforms : Struct :=
  [("mvpMatrix", simd_float4x4), ("bias", float),
   ("padding", simd_float3)]

/-- `PointShadowUniforms`. -/
def PointShadowUniforms : Struct :=
  [("mvpMatrix", simd_float4x4), ("lightPosition", simd_float3),
   ("lightRange", float)]

/-- Legacy `Light` (Phase 1/2 compatibility). -/
def Light : Struct :=
  [("position", simd_float3), ("direction", simd_float3),
   ("color", simd_float3), ("intensity", float),
   ("range", float), ("spotAngle", float)]

/-- Legacy `Material` (Phase 1/2 compatibility). -/
def Material : Struct :=
  [("albedo", simd_float4), ("metallic", float),
   ("roughness", float), ("ao", float), ("emission", float)]

/-- Every structure declared in the header, in declaration order. -/
def headerStructs : List (String × Struct) :=
  [("VertexIn", VertexIn), ("Uniforms", Uniforms),
   ("DirectionalLightData", DirectionalLightData),
   ("PointLightData", PointLightData),
   ("SpotLightData", SpotLightData),
   ("LightingData", LightingData),
   ("MaterialData", MaterialData),
   ("ShadowUniforms", ShadowUniforms),
   ("PointShadowUniforms", PointShadowUniforms),
   ("Light", Light), ("Material", Material)]

-- MARK: enumerations (NS_ENUM constants of the header, literal values)

/-- `BufferIndexVertices`. -/
def BufferIndexVertices : Int := 0

/-- `BufferIndexUniforms`. -/
def BufferIndexUniforms : Int := 1

/-- `BufferIndexLightingData`. -/
def BufferIndexLightingData : Int := 2

/-- `BufferIndexMaterialData`. -/
def BufferIndexMaterialData : Int := 3

/-- `BufferIndexShadowData`. -/
def BufferIndexShadowData : Int := 4

/-- `BufferIndexLights` (legacy alias). -/
def BufferIndexLights : Int := 2

/-- `BufferIndexMaterial` (legacy alias). -/
def BufferIndexMaterial : Int := 3

/-- `VertexAttributePosition`. -/
def VertexAttributePosition : Int := 0

/-- `VertexAttributeNormal`. -/
def VertexAttributeNormal : Int := 1

/-- `VertexAttributeTexCoord`. -/
def VertexAttributeTexCoord : Int := 2

/-- `VertexAttributeColor`. -/
def VertexAttributeColor : Int := 3

/-- `VertexAttributeTangent`. -/
def VertexAttributeTangent : Int := 4

/-- `TextureIndexAlbedo`. -/
def TextureIndexAlbedo : Int := 0

/-- `TextureIndexNormal`. -/
def TextureIndexNormal : Int := 1

/-- `TextureIndexMetallicRoughness`. -/
def TextureIndexMetallicRoughness : Int := 2

/-- `TextureIndexAO`. -/
def TextureIndexAO : Int := 3

/-- `TextureIndexEmissive`. -/
def TextureIndexEmissive : Int := 4

/-- `TextureIndexShadowMap0`. -/
def TextureIndexShadowMap0 : Int := 5

/-- `TextureIndexShadowMap1`. -/
def TextureIndexShadowMap1 : Int := 6

/-- `TextureIndexShadowMap2`. -/
def TextureIndexShadowMap2 : Int := 7

/-- `TextureIndexShadowMap3`. -/
def TextureIndexShadowMap3 : Int := 8

/-- `TextureIndexMetallic` (legacy alias). -/
def TextureIndexMetallic : Int := 2

/-- `TextureIndexRoughness` (legacy alias). -/
def TextureIndexRoughness : Int := 3

/-- `TextureIndexEmission` (legacy alias). -/
def TextureIndexEmission : Int := 5

/-- `SamplerIndexTexture`. -/
def SamplerIndexTexture : Int := 0

/-- `SamplerIndexShadow`. -/
def SamplerIndexShadow : Int := 1

/-- The `[[attribute(n)]]` annotations on the fields of `VertexIn`, in
declaration order, transcribed from the header. -/
def VertexIn_attributes : List (String × Int) :=
  [("position", 0), ("normal", 1), ("texCoords", 2),
   ("color", 3), ("tangent", 4)]

-- MARK: value-level view of the structures (float fields carried as
-- 32-bit IEEE-754 bit patterns, so serialization is exact)

/-- A populated `DirectionalLightData`: each float field is its 32-bit
IEEE-754 bit pattern. -/
structure DirectionalLightDataVal where
  direction : Nat × Nat × Nat
  intensity : Nat
  color : Nat × Nat × Nat
  padding : Nat

/-- A populated `PointLightData`. -/
structure PointLightDataVal where
  position : Nat × Nat × Nat
  intensity : Nat
  color : Nat × Nat × Nat
  range : Nat

/-- A populated `SpotLightData`. -/
structure SpotLightDataVal where
  position : Nat × Nat × Nat
  intensity : Nat
  direction : Nat × Nat × Nat
  range : Nat
  color : Nat × Nat × Nat
  innerConeAngle : Nat
  outerConeAngle : Nat
  padding1 : Nat
  padding2 : Nat × Nat

/-- A populated `LightingData`.  The fixed C arrays
`pointLights[MAX_POINT_LIGHTS]`, `spotLights[MAX_SPOT_LIGHTS]` and
`shadowMatrices[MAX_CASCADE_COUNT]` are lists whose lengths are pinned
to the capacity constants, exactly as the type fixes them in C. -/
structure LightingDataVal where
  ambientColor : Nat × Nat × Nat
  padding0 : Nat
  cameraPosition : Nat × Nat × Nat
  padding1 : Nat
  directionalLight : DirectionalLightDataVal
  pointLightCount : Nat
  spotLightCount : Nat
  padding2 : Nat × Nat
  pointLights : List PointLightDataVal
  spotLights : List SpotLightDataVal
  cascadeDistances : Nat × Nat × Nat × Nat
  shadowMatrices : List (List Nat)
  hpoint : pointLights.length = MAX_POINT_LIGHTS
  hspot : spotLights.length = MAX_SPOT_LIGHTS
  hshadow : shadowMatrices.length = MAX_CASCADE_COUNT

-- MARK: byte serialization

/-- The four bytes of a 32-bit word, little-endian. -/
def bytesLE (w : Nat) : List Nat :=
  [w % 256, w / 256 % 256, w / 65536 % 256, w / 16777216 % 256]

/-- Overwrite `bs.length` bytes of `buf` starting at `off`. -/
def writeBytes (buf : List Nat) (off : Nat) (bs : List Nat) : List Nat :=
  buf.take off ++ bs ++ buf.drop (off + bs.length)

/-- Write one float (as its bit pattern) at `off`, little-endian. -/
def writeFloat (buf : List Nat) (off w : Nat) : List Nat :=
  writeBytes buf off (bytesLE w)

/-- Write the three components of a `simd_float3` at `off`, `off+4`,
`off+8` (the fourth 4-byte lane of the 16-byte vector stays as it was). -/
def writeFloat3 (buf : List Nat) (off : Nat) (v : Nat × Nat × Nat) : List Nat :=
  writeFloat (writeFloat (writeFloat buf off v.1) (off + 4) v.2.1) (off + 8) v.2.2

/-- Serialize a `DirectionalLightData` to its raw bytes: a zeroed buffer
of `sizeof(DirectionalLightData)` bytes with each field written at the
offset the layout algorithm assigns to it. -/
def serializeDirectionalLightData (d : DirectionalLightDataVal) : List Nat :=
  let b0 := List.replicate (sizeofStruct DirectionalLightData) 0
  let b1 := writeFloat3 b0 (offsetOf DirectionalLightData "direction") d.direction
  let b2 := writeFloat b1 (offsetOf DirectionalLightData "intensity") d.intensity
  let b3 := writeFloat3 b2 (offsetOf DirectionalLightData "color") d.color
  writeFloat b3 (offsetOf DirectionalLightData "padding") d.padding

/-- IEEE-754 binary32 bit pattern from sign bit, biased exponent and
mantissa. -/
def f32 (sign biasedExp mantissa : Nat) : Nat :=
  sign * 2 ^ 31 + biasedExp * 2 ^ 23 + mantissa

/-- Bit pattern of `0.0f`. -/
def f32_zero : Nat := f32 0 0 0

/-- Bit pattern of `1.0f` (`0x3F800000`). -/
def f32_one : Nat := f32 0 127 0

/-- Bit pattern of `-1.0f` (`0xBF800000`). -/
def f32_negOne : Nat := f32 1 127 0

/-- `DirectionalLightData{direction=(0,-1,0), intensity=1.0,
color=(1,1,1), padding=0}`. -/
def dlExample : DirectionalLightDataVal :=
  ⟨(f32_zero, f32_negOne, f32_zero), f32_one,
   (f32_one, f32_one, f32_one), f32_zero⟩

/-- The hand-computed expected buffer for `dlExample`: little-endian
IEEE-754 float32 encodings at offsets 0/4/8 (direction), 16 (intensity),
32/36/40 (color), 48 (padding field), every padding byte zero. -/
def expectedDirectionalLightBytes : List Nat :=
  [0, 0, 0, 0, 0, 0, 128, 191, 0, 0, 0, 0, 0, 0, 0, 0,
   0, 0, 128, 63, 0, 0, 0, 0, 0, 0, 0, 0, 0, 0, 0, 0,
   0, 0, 128, 63, 0, 0, 128, 63, 0, 0, 128, 63, 0, 0, 0, 0,
   0, 0, 0, 0, 0, 0, 0, 0, 0, 0, 0, 0, 0, 0, 0, 0]

/-- A fully populated `LightingData` at capacity, used as a concrete
instance. -/
def lightingExample : LightingDataVal where
  ambientColor := (0, 0, 0)
  padding0 := 0
  cameraPosition := (0, 0, 0)
  padding1 := 0
  directionalLight := ⟨(0, 0, 0), 0, (0, 0, 0), 0⟩
  pointLightCount := 8
  spotLightCount := 8
  padding2 := (0, 0)
  pointLights := List.replicate 8 ⟨(0, 0, 0), 0, (0, 0, 0), 0⟩
  spotLights := List.replicate 8 ⟨(0, 0, 0), 0, (0, 0, 0), 0, (0, 0, 0), 0, 0, 0, (0, 0)⟩
  cascadeDistances := (0, 0, 0, 0)
  shadowMatrices := List.replicate 4 (List.replicate 16 0)
  hpoint := by decide
  hspot := by decide
  hshadow := by decide

-- MARK: theorems

/-- C1: for every structure declared in the header (VertexIn, Uniforms,
DirectionalLightData, PointLightData, SpotLightData, LightingData,
MaterialData, ShadowUniforms, PointShadowUniforms, Light, Material), the
total size under the declared field order and the platform's default
non-packed layout rules is a multiple of 16 bytes. -/
theorem sizeof_every_struct_multiple_of_16 :
    sizeofStruct VertexIn % 16 = 0 ∧
    sizeofStruct Uniforms % 16 = 0 ∧
    sizeofStruct DirectionalLightData % 16 = 0 ∧
    sizeofStruct PointLightData % 16 = 0 ∧
    sizeofStruct SpotLightData % 16 = 0 ∧
    sizeofStruct LightingData % 16 = 0 ∧
    sizeofStruct MaterialData % 16 = 0 ∧
    sizeofStruct ShadowUniforms % 16 = 0 ∧
    sizeofStruct PointShadowUniforms % 16 = 0 ∧
    sizeofStruct Light % 16 = 0 ∧
    sizeofStruct Material % 16 = 0 := by
  decide

/-- C2 counterexample: `VertexIn` refutes the claim that every structure
whose field sizes do not sum to a multiple of 16 carries explicit
padding fields.  Its natural field sizes sum to 60 (and its platform
field sizes to 72), neither a multiple of 16, yet it declares no
padding field; its 16-multiple total size of 80 comes only from
implicit layout padding. -/
theorem vertexIn_lacks_explicit_padding :
    natSum VertexIn % 16 ≠ 0 ∧
    sumSizes VertexIn % 16 ≠ 0 ∧
    hasExplicitPadding VertexIn = false ∧
    sizeofStruct VertexIn % 16 = 0 ∧
    sizeofStruct VertexIn ≠ sumSizes VertexIn := by
  decide

/-- C2 (amended): every structure in the header except `VertexIn` has
natural field sizes (scalar component sizes, 12 bytes for a
`simd_float3`) summing to a multiple of 16, and whenever the sum without
the explicit padding fields is not a multiple of 16 the structure does
carry explicit padding fields; `VertexIn` alone has a natural sum (60)
that is not a multiple of 16 with no padding fields, reaching its
16-multiple size of 80 only through implicit layout padding. -/
theorem padding_discipline_except_vertexIn :
    (∀ p ∈ headerStructs, p.1 ≠ "VertexIn" →
      natSum p.2 % 16 = 0 ∧
      (natSum (stripPadding p.2) % 16 ≠ 0 → hasExplicitPadding p.2 = true)) ∧
    natSum VertexIn % 16 = 12 ∧
    hasExplicitPadding VertexIn = false ∧
    sizeofStruct VertexIn = 80 := by
  decide

/-- Witness for C2 (amended) at the concrete structure
`DirectionalLightData`. -/
theorem padding_discipline_witness :
    ("DirectionalLightData", DirectionalLightData) ∈ headerStructs ∧
    natSum DirectionalLightData % 16 = 0 ∧
    hasExplicitPadding DirectionalLightData = true :=
  ⟨by decide,
   (padding_discipline_except_vertexIn.1 ("DirectionalLightData", DirectionalLightData)
      (by decide) (by decide)).1,
   (padding_discipline_except_vertexIn.1 ("DirectionalLightData", DirectionalLightData)
      (by decide) (by decide)).2 (by decide)⟩

/-- C3: the legacy buffer-slot names are exact numeric aliases of the
modern names: `BufferIndexLights == BufferIndexLightingData` (both 2)
and `BufferIndexMaterial == BufferIndexMaterialData` (both 3). -/
theorem bufferIndex_legacy_aliases :
    BufferIndexLights = BufferIndexLightingData ∧
    BufferIndexMaterial = BufferIndexMaterialData ∧
    BufferIndexLights = 2 ∧
    BufferIndexMaterial = 3 := by
  decide

/-- C4: the capacity constants are 8, 8, 4, 4, and `LightingData`'s
array fields have exactly these fixed sizes: `pointLights` is an array
of 8 `PointLightData`, `spotLights` of 8 `SpotLightData`,
`shadowMatrices` of 4 `simd_float4x4`, and `directionalLight` is one
directly embedded `DirectionalLightData`, not an array of 4. -/
theorem capacity_constants_and_array_bounds :
    MAX_POINT_LIGHTS = 8 ∧
    MAX_SPOT_LIGHTS = 8 ∧
    MAX_DIRECTIONAL_LIGHTS = 4 ∧
    MAX_CASCADE_COUNT = 4 ∧
    fieldTy LightingData "pointLights" = some (arrTy (structTy PointLightData) 8) ∧
    fieldTy LightingData "spotLights" = some (arrTy (structTy SpotLightData) 8) ∧
    fieldTy LightingData "shadowMatrices" = some (arrTy simd_float4x4 4) ∧
    fieldTy LightingData "directionalLight" = some (structTy DirectionalLightData) ∧
    fieldTy LightingData "directionalLight" ≠
      some (arrTy (structTy DirectionalLightData) 4) := by
  decide

/-- C5: the `[[attribute(n)]]` annotations of `VertexIn` assign
position = 0, normal = 1, texCoords = 2, color = 3, tangent = 4, and
agree field for field, in order, with the enumerator values of
`VertexAttribute`. -/
theorem vertex_attribute_slots_agree :
    VertexIn_attributes.map Prod.fst = VertexIn.map Prod.fst ∧
    VertexIn_attributes.map Prod.snd =
      [VertexAttributePosition, VertexAttributeNormal, VertexAttributeTexCoord,
       VertexAttributeColor, VertexAttributeTangent] ∧
    VertexAttributePosition = 0 ∧
    VertexAttributeNormal = 1 ∧
    VertexAttributeTexCoord = 2 ∧
    VertexAttributeColor = 3 ∧
    VertexAttributeTangent = 4 := by
  decide

/-- C6: under the precondition that the advisory counts do not exceed
the capacity 8, every read of `pointLights[i]` with `i <
pointLightCount` and of `spotLights[j]` with `j < spotLightCount` is
within the bounds of the fixed arrays of `LightingData`. -/
theorem light_reads_below_count_in_bounds (ld : LightingDataVal) (i j : Nat)
    (hpc : ld.pointLightCount ≤ MAX_POINT_LIGHTS)
    (hsc : ld.spotLightCount ≤ MAX_SPOT_LIGHTS)
    (hi : i < ld.pointLightCount) (hj : j < ld.spotLightCount) :
    (ld.pointLights[i]?).isSome ∧ (ld.spotLights[j]?).isSome := by
  have hp := ld.hpoint
  have hs := ld.hspot
  constructor
  · rw [List.getElem?_eq_getElem (by rw [hp]; exact lt_of_lt_of_le hi hpc)]
    rfl
  · rw [List.getElem?_eq_getElem (by rw [hs]; exact lt_of_lt_of_le hj hsc)]
    rfl

/-- Witness for C6 at the capacity-filled `lightingExample` with the
largest legal indices. -/
theorem light_reads_witness :
    (lightingExample.pointLights[7]?).isSome ∧
    (lightingExample.spotLights[7]?).isSome :=
  light_reads_below_count_in_bounds lightingExample 7 7
    (by decide) (by decide) (by decide) (by decide)

/-- C7: serializing `DirectionalLightData{direction=(0,-1,0),
intensity=1.0, color=(1,1,1), padding=0}` yields exactly the
hand-computed 64-byte buffer: each field's little-endian IEEE-754
float32 encoding at the offset the layout assigns it (direction at 0,
intensity at 16, color at 32, padding at 48), every padding byte zero. -/
theorem directionalLight_serialization_golden :
    serializeDirectionalLightData dlExample = expectedDirectionalLightBytes ∧
    expectedDirectionalLightBytes.length = sizeofStruct DirectionalLightData := by
  decide

/-- C8: `Uniforms` is exactly three `simd_float4x4` fields in the order
modelMatrix, viewMatrix, projectionMatrix, declares no padding fields
and needs no implicit padding (field sizes already sum to the total), so
its size is 192 = 3 * 64 and the matrices sit at offsets 0, 64, 128. -/
theorem uniforms_layout :
    Uniforms.map Prod.fst = ["modelMatrix", "viewMatrix", "projectionMatrix"] ∧
    Uniforms.map Prod.snd = [simd_float4x4, simd_float4x4, simd_float4x4] ∧
    hasExplicitPadding Uniforms = false ∧
    sumSizes Uniforms = sizeofStruct Uniforms ∧
    sizeofStruct Uniforms = 192 ∧
    offsetOf Uniforms "modelMatrix" = 0 ∧
    offsetOf Uniforms "viewMatrix" = 64 ∧
    offsetOf Uniforms "projectionMatrix" = 128 := by
  decide

/-- C9: in `MaterialData`, baseColor sits at offset 0, the scalars
metallic, roughness, ao and the explicit `padding0` fill offsets
16..31, and the following field `emissive` starts at offset 32, a
multiple of 16, satisfying the 16-byte alignment requirement of its
`simd_float3` type. -/
theorem materialData_padding0_aligns_emissive :
    offsetOf MaterialData "baseColor" = 0 ∧
    offsetOf MaterialData "metallic" = 16 ∧
    offsetOf MaterialData "roughness" = 20 ∧
    offsetOf MaterialData "ao" = 24 ∧
    offsetOf MaterialData "padding0" = 28 ∧
    offsetOf MaterialData "emissive" = 32 ∧
    offsetOf MaterialData "emissive" % 16 = 0 ∧
    simd_float3.align = 16 := by
  decide

/-- C10: in `TextureIndex`, the legacy aliases collide as declared:
Metallic = MetallicRoughness = 2, Roughness = AO = 3, Emission =
ShadowMap0 = 5; in particular the legacy Emission slot does not equal
the modern Emissive slot (4) — it collides with cascade shadow map 0. -/
theorem textureIndex_legacy_aliases :
    TextureIndexMetallic = TextureIndexMetallicRoughness ∧
    TextureIndexMetallic = 2 ∧
    TextureIndexRoughness = TextureIndexAO ∧
    TextureIndexRoughness = 3 ∧
    TextureIndexEmission = TextureIndexShadowMap0 ∧
    TextureIndexEmission = 5 ∧
    TextureIndexEmission ≠ TextureIndexEmissive ∧
    TextureIndexEmissive = 4 := by
  decide

end ShaderTypes
